import Mathlib

/-!
Verification of the retrieval-augmented tool-calling loop of the
course-materials RAG system, centred on `backend/ai_generator.py`
(`AIGenerator.generate_response` and `AIGenerator._handle_tool_execution`)
together with the vector-store data model (`SearchResults`,
`VectorStore._build_filter`).

The LLM provider is modelled as an oracle `Nat → LLMResponse` mapping the
index of an outbound API call (0-based, in issue order) to the response the
provider returns for that call.  Tool execution is modelled as
`String → ToolInput → Except String String`: `Except.error e` stands for a
Python exception whose `str(e)` is `e`, `Except.ok r` for a normal return.
A run is recorded as a trace: every outbound LLM call with the parameters
it was issued with (message list, system string, whether the tool schema
was attached), the tool invocations in execution order, the number of
tool-bearing exchanges, the response that terminated the loop, and the
returned string (`none` models an uncaught Python exception escaping
`generate_response`, which can only happen on the direct-return path).
-/

/-- Keyword arguments of one tool call (`content_block.input`), as
association pairs. -/
abbrev ToolInput := List (String × String)

/-- One content block of an LLM response.  `text` blocks carry a `text`
attribute; `toolUse` blocks carry `id`, `name` and `input` and have no
`text` attribute (so `hasattr(block, "text")` is false for them). -/
inductive ContentBlock where
  | text (s : String)
  | toolUse (id : String) (name : String) (input : ToolInput)
deriving DecidableEq

/-- A response from the LLM provider: its content blocks and its stop
reason (`"tool_use"` when the model requests tool calls). -/
structure LLMResponse where
  content : List ContentBlock
  stop_reason : String
deriving DecidableEq

/-- One entry of the combined tool-result message
(`{"type": "tool_result", "tool_use_id": ..., "content": ...}`). -/
structure ToolResult where
  tool_use_id : String
  content : String
deriving DecidableEq

/-- The content of one message in the conversation history: the raw user
query, an assistant turn (list of content blocks), or a combined
tool-result message. -/
inductive MsgContent where
  | str (s : String)
  | blocks (bs : List ContentBlock)
  | results (rs : List ToolResult)
deriving DecidableEq

/-- One role-tagged message of the conversation history. -/
structure Message where
  role : String
  content : MsgContent
deriving DecidableEq

/-- The tool manager as seen by `AIGenerator`: `execute_tool` dispatches a
call by tool name with keyword arguments; `Except.error e` models a raised
exception with message `e`. -/
structure ToolManager where
  execute_tool : String → ToolInput → Except String String

/-- Parameters of one outbound LLM API call, as recorded in the trace:
the message list, the system string, and whether the `tools` schema was
attached to the call. -/
structure CallRecord where
  messages : List Message
  system : String
  toolsIncluded : Bool
deriving DecidableEq

/-- The observable outcome of one `generate_response` invocation. -/
structure RunResult where
  /-- Every outbound LLM call, in issue order, with its parameters. -/
  calls : List CallRecord
  /-- Every tool execution, in execution order, as (name, input). -/
  toolExecs : List (String × ToolInput)
  /-- Number of tool-bearing exchanges (invocations of the round handler). -/
  rounds : Nat
  /-- The LLM response on which the loop terminated. -/
  final : LLMResponse
  /-- The returned string; `none` models an uncaught Python exception. -/
  result : Option String
deriving DecidableEq

/-- `AIGenerator.SYSTEM_PROMPT`: the static system prompt. -/
def SYSTEM_PROMPT : String :=
  " You are an AI assistant specialized in course materials and educational content with access to a comprehensive search tool for course information.\n\nSearch Tool Usage:\n- Use the search tool **only** for questions about specific course content or detailed educational materials\n- **Up to two searches per query** for complex queries requiring comparisons or multi-part questions\n- For simple single-topic questions, one search is sufficient\n- Synthesize search results into accurate, fact-based responses\n- If search yields no results, state this clearly without offering alternatives\n\nResponse Protocol:\n- **General knowledge questions**: Answer using existing knowledge without searching\n- **Course-specific questions**: Search first, then answer\n- **No meta-commentary**:\n - Provide direct answers only - no reasoning process, search explanations, or question-type analysis\n - Do not mention \"based on the search results\"\n\n\nAll responses must be:\n1. **Brief, Concise and focused** - Get to the point quickly\n2. **Educational** - Maintain instructional value\n3. **Clear** - Use accessible language\n4. **Example-supported** - Include relevant examples when they aid understanding\nProvide only the direct answer to what was asked.\n"

/-- `AIGenerator.MAX_TOOL_ROUNDS = 2`: maximum sequential tool-call rounds
per query. -/
def MAX_TOOL_ROUNDS : Nat := 2

/-- The fixed fallback string returned when a final response holds no text
block (`ai_generator.py` line 162). -/
def FALLBACK_MESSAGE : String :=
  "I was unable to generate a complete response. Please try rephrasing your question."

/-- Python truthiness of an `Optional[str]`: `None` and `""` are falsy. -/
def truthy : Option String → Bool
  | none => false
  | some s => !s.isEmpty

/-- The tool-execution loop of `_handle_tool_execution` (lines 113-130):
walk the content blocks in emitted order; for each `tool_use` block run
`tool_manager.execute_tool`, converting a raised exception to the string
`"Tool execution error: <message>"` and raising the `tool_error` flag;
collect one tagged `ToolResult` per call, in order.  Returns the collected
results and the final `tool_error` flag. -/
def collectToolResults (tm : ToolManager) : List ContentBlock → List ToolResult × Bool
  | [] => ([], false)
  | ContentBlock.text _ :: rest => collectToolResults tm rest
  | ContentBlock.toolUse i n inp :: rest =>
    let this : String × Bool :=
      match tm.execute_tool n inp with
      | Except.ok r => (r, false)
      | Except.error e => ("Tool execution error: " ++ e, true)
    let tl := collectToolResults tm rest
    (ToolResult.mk i this.1 :: tl.1, this.2 || tl.2)

/-- The tool calls requested in a list of content blocks, in emitted
order, as (name, input). -/
def toolCallsOf (blocks : List ContentBlock) : List (String × ToolInput) :=
  blocks.filterMap fun b =>
    match b with
    | ContentBlock.toolUse _ n inp => some (n, inp)
    | _ => none

/-- Text extraction from a final response (lines 158-160): return the
`text` of the first block that has a `text` attribute, if any. -/
def extractText : List ContentBlock → Option String
  | [] => none
  | ContentBlock.text s :: _ => some s
  | ContentBlock.toolUse _ _ _ :: rest => extractText rest

/-- The direct-return path `response.content[0].text` (line 90): reads the
`text` attribute of the first content block.  `none` models the Python
exception raised when the content is empty (`IndexError`) or the first
block has no `text` attribute (`AttributeError`). -/
def firstBlockText : List ContentBlock → Option String
  | ContentBlock.text s :: _ => some s
  | _ => none

/-- `AIGenerator._handle_tool_execution` (lines 92-162).  Arguments mirror
the source: `initial_response` is the tool-requesting response being
processed, `base_messages` the message list of `base_params`, `system` the
system string of `base_params`, `tools_in_base` whether `base_params` has
a `"tools"` key, `round` the 1-based round number, `k` the index of the
next outbound LLM call.  The returned trace covers this and all deeper
rounds (the first outbound call of the trace is the follow-up of this round). -/
def handle_tool_execution (llm : Nat → LLMResponse) (tm : ToolManager)
    (initial_response : LLMResponse) (base_messages : List Message)
    (system : String) (tools_in_base : Bool) (round : Nat) (k : Nat) : RunResult :=
  let messages := base_messages ++ [Message.mk "assistant" (MsgContent.blocks initial_response.content)]
  let collected := collectToolResults tm initial_response.content
  let messages :=
    if collected.1.isEmpty then messages
    else messages ++ [Message.mk "user" (MsgContent.results collected.1)]
  let include_tools := decide (round < MAX_TOOL_ROUNDS) && !collected.2
  let followup_call : CallRecord := CallRecord.mk messages system (include_tools && tools_in_base)
  let followup_response := llm k
  if h : (followup_response.stop_reason == "tool_use") &&
      (decide (round < MAX_TOOL_ROUNDS) && !collected.2) then
    let r := handle_tool_execution llm tm followup_response messages system tools_in_base (round + 1) (k + 1)
    RunResult.mk (followup_call :: r.calls) (toolCallsOf initial_response.content ++ r.toolExecs)
      (r.rounds + 1) r.final r.result
  else
    RunResult.mk [followup_call] (toolCallsOf initial_response.content) 1 followup_response
      (some ((extractText followup_response.content).getD FALLBACK_MESSAGE))
termination_by MAX_TOOL_ROUNDS - round
decreasing_by
  simp only [MAX_TOOL_ROUNDS, Bool.and_eq_true, decide_eq_true_eq] at h ⊢
  omega

/-- `AIGenerator.generate_response` (lines 46-90).  `tools` is the list of
tool schemas passed in (Python truthiness: an empty list means no `"tools"`
key is added to the API parameters); `tool_manager` is optional. -/
def generate_response (llm : Nat → LLMResponse) (query : String)
    (conversation_history : Option String) (tools : List String)
    (tool_manager : Option ToolManager) : RunResult :=
  let system_content :=
    if truthy conversation_history then
      SYSTEM_PROMPT ++ "\n\nPrevious conversation:\n" ++ conversation_history.getD ""
    else SYSTEM_PROMPT
  let has_tools := !tools.isEmpty
  let messages : List Message := [Message.mk "user" (MsgContent.str query)]
  let first_call : CallRecord := CallRecord.mk messages system_content has_tools
  let response := llm 0
  match tool_manager with
  | some tm =>
    if response.stop_reason == "tool_use" then
      let r := handle_tool_execution llm tm response messages system_content has_tools 1 1
      RunResult.mk (first_call :: r.calls) r.toolExecs r.rounds r.final r.result
    else
      RunResult.mk [first_call] [] 0 response (firstBlockText response.content)
  | none =>
    RunResult.mk [first_call] [] 0 response (firstBlockText response.content)

/-- Modelled from the spec: `backend/vector_store.py` (class `SearchResults`)
is not under `src`, only its unit tests are.  Spec section 3: parallel ordered
sequences `documents`/`metadata`/`distances` plus an optional `error` string;
when the error is set the sequences are empty. -/
structure SearchResults where
  documents : List String
  metadata : List (List (String × String))
  distances : List Float
  error : Option String

/-- Modelled from the spec: the `SearchResults.empty(error_msg)` factory
builds a terminal-failure result carrying the error and empty sequences. -/
def SearchResults.empty (error_msg : String) : SearchResults :=
  SearchResults.mk [] [] [] (some error_msg)

/-- Modelled from the spec: the emptiness check `SearchResults.is_empty`,
true when the result holds no retrieved documents. -/
def SearchResults.is_empty (sr : SearchResults) : Bool :=
  sr.documents.isEmpty

/-- The data-model invariant on `SearchResults` (section 3): when the
error is non-null, the `documents`/`metadata`/`distances` sequences are
empty. -/
def SearchResults.Wf (sr : SearchResults) : Prop :=
  sr.error.isSome → sr.documents = [] ∧ sr.metadata = [] ∧ sr.distances = []

/-- A Chroma-style structured filter, mirroring the dictionaries the unit
tests expect: an equality filter on the course title, an equality filter on
the lesson number, or a conjunction of filters. -/
inductive ChromaFilter where
  | courseTitle (c : String)
  | lessonNumber (n : Nat)
  | conj (fs : List ChromaFilter)

/-- Modelled from the spec: `VectorStore._build_filter` is not under `src`,
only its unit tests are.  Spec sections 4.1 and 8: no filter if neither
`courseName` nor `lessonNumber` is given; a single equality filter if
exactly one is given; a conjunction of both equality filters if both are
given; `lessonNumber = 0` is a valid, distinct filter value and is never
coalesced with the no-filter case. -/
def build_filter : Option String → Option Nat → Option ChromaFilter
  | none, none => none
  | some c, none => some (ChromaFilter.courseTitle c)
  | none, some n => some (ChromaFilter.lessonNumber n)
  | some c, some n =>
    some (ChromaFilter.conj [ChromaFilter.courseTitle c, ChromaFilter.lessonNumber n])

/-- The string recorded as the result of one tool call: the return value of the tool
value on success, the synthetic error string when execution raised. -/
def resultString (tm : ToolManager) (n : String) (inp : ToolInput) : String :=
  match tm.execute_tool n inp with
  | Except.ok r => r
  | Except.error e => "Tool execution error: " ++ e

/-- Whether executing tool `n` on input `inp` raises an exception. -/
def raised (tm : ToolManager) (n : String) (inp : ToolInput) : Bool :=
  match tm.execute_tool n inp with
  | Except.ok _ => false
  | Except.error _ => true

/-- Witness fixture: an LLM that requests one tool call on every turn. -/
def llmAllTool : Nat → LLMResponse := fun _ =>
  LLMResponse.mk [ContentBlock.toolUse "t1" "search_course_content" [("query", "AI")]] "tool_use"

/-- Witness fixture: an LLM that requests a tool call on the first turn and
answers with plain text afterwards. -/
def llmToolThenText : Nat → LLMResponse := fun k =>
  if k = 0 then
    LLMResponse.mk [ContentBlock.toolUse "t1" "search_course_content" [("query", "fail")]] "tool_use"
  else
    LLMResponse.mk [ContentBlock.text "Sorry, I encountered an issue"] "end_turn"

/-- Witness fixture: an LLM that requests a tool call on the first turn and
afterwards returns a terminal response with no content blocks at all. -/
def llmToolThenEmpty : Nat → LLMResponse := fun k =>
  if k = 0 then
    LLMResponse.mk [ContentBlock.toolUse "t1" "search_course_content" [("query", "AI")]] "tool_use"
  else
    LLMResponse.mk [] "end_turn"

/-- Witness fixture: an LLM that answers with plain text immediately. -/
def llmDirect : Nat → LLMResponse := fun _ =>
  LLMResponse.mk [ContentBlock.text "Direct answer"] "end_turn"

/-- Witness fixture: a tool manager whose every execution succeeds. -/
def tmOk : ToolManager :=
  ToolManager.mk fun _ _ => Except.ok "search results"

/-- Witness fixture: a tool manager whose every execution raises
`DB connection failed`. -/
def tmRaise : ToolManager :=
  ToolManager.mk fun _ _ => Except.error "DB connection failed"

/-- The system content `generate_response` builds from the optional
conversation history (lines 63-68). -/
def gen_system (hist : Option String) : String :=
  if truthy hist then SYSTEM_PROMPT ++ "\n\nPrevious conversation:\n" ++ hist.getD ""
  else SYSTEM_PROMPT

/-- The round-handler invocation `generate_response` makes on its tool
path, at round 1, after the initial LLM call. -/
def gen_handle (llm : Nat → LLMResponse) (tm : ToolManager) (q : String)
    (hist : Option String) (tools : List String) : RunResult :=
  handle_tool_execution llm tm (llm 0) [Message.mk "user" (MsgContent.str q)]
    (gen_system hist) (!tools.isEmpty) 1 1

theorem collect_fst (tm : ToolManager) (bs : List ContentBlock) :
    (collectToolResults tm bs).1 = bs.filterMap fun b =>
      match b with
      | ContentBlock.toolUse i n inp => some (ToolResult.mk i (resultString tm n inp))
      | _ => none := by
  induction bs with
  | nil => rfl
  | cons b rest ih =>
    cases b with
    | text s => simpa [collectToolResults] using ih
    | toolUse i n inp =>
      simp only [collectToolResults, List.filterMap_cons]
      cases hex : tm.execute_tool n inp <;> simp [resultString, hex, ih]

theorem collect_snd (tm : ToolManager) (bs : List ContentBlock) :
    (collectToolResults tm bs).2 = bs.any fun b =>
      match b with
      | ContentBlock.toolUse _ n inp => raised tm n inp
      | _ => false := by
  induction bs with
  | nil => rfl
  | cons b rest ih =>
    cases b with
    | text s => simpa [collectToolResults] using ih
    | toolUse i n inp =>
      simp only [collectToolResults, List.any_cons]
      cases hex : tm.execute_tool n inp <;> simp [raised, hex, ih]

theorem collect_snd_of_raises (tm : ToolManager) (bs : List ContentBlock)
    (i n : String) (inp : ToolInput) (e : String)
    (hmem : ContentBlock.toolUse i n inp ∈ bs)
    (hex : tm.execute_tool n inp = Except.error e) :
    (collectToolResults tm bs).2 = true := by
  rw [collect_snd]
  refine List.any_eq_true.mpr ⟨ContentBlock.toolUse i n inp, hmem, ?_⟩
  simp [raised, hex]

theorem handle_calls_length (llm : Nat → LLMResponse) (tm : ToolManager)
    (resp : LLMResponse) (msgs : List Message) (sys : String) (tib : Bool) (rd k : Nat) :
    (handle_tool_execution llm tm resp msgs sys tib rd k).calls.length =
      (handle_tool_execution llm tm resp msgs sys tib rd k).rounds := by
  rw [handle_tool_execution]
  split
  · simp only [List.length_cons]
    rw [handle_calls_length]
  · simp
termination_by MAX_TOOL_ROUNDS - rd
decreasing_by
  rename_i h
  simp only [MAX_TOOL_ROUNDS, Bool.and_eq_true, decide_eq_true_eq] at h ⊢
  omega

theorem handle_rounds_pos (llm : Nat → LLMResponse) (tm : ToolManager)
    (resp : LLMResponse) (msgs : List Message) (sys : String) (tib : Bool) (rd k : Nat) :
    1 ≤ (handle_tool_execution llm tm resp msgs sys tib rd k).rounds := by
  rw [handle_tool_execution]
  split <;> simp

theorem handle_result_isSome (llm : Nat → LLMResponse) (tm : ToolManager)
    (resp : LLMResponse) (msgs : List Message) (sys : String) (tib : Bool) (rd k : Nat) :
    (handle_tool_execution llm tm resp msgs sys tib rd k).result.isSome = true := by
  rw [handle_tool_execution]
  split
  · exact handle_result_isSome llm tm (llm k) _ sys tib (rd + 1) (k + 1)
  · simp
termination_by MAX_TOOL_ROUNDS - rd
decreasing_by
  rename_i h
  simp only [MAX_TOOL_ROUNDS, Bool.and_eq_true, decide_eq_true_eq] at h ⊢
  omega

theorem handle_system_all (llm : Nat → LLMResponse) (tm : ToolManager)
    (resp : LLMResponse) (msgs : List Message) (sys : String) (tib : Bool) (rd k : Nat) :
    ((handle_tool_execution llm tm resp msgs sys tib rd k).calls.all
      fun c => c.system == sys) = true := by
  rw [handle_tool_execution]
  split
  · simp only [List.all_cons, Bool.and_eq_true, beq_self_eq_true, true_and]
    exact handle_system_all llm tm (llm k) _ sys tib (rd + 1) (k + 1)
  · simp
termination_by MAX_TOOL_ROUNDS - rd
decreasing_by
  rename_i h
  simp only [MAX_TOOL_ROUNDS, Bool.and_eq_true, decide_eq_true_eq] at h ⊢
  omega

theorem handle_rounds_le (llm : Nat → LLMResponse) (tm : ToolManager)
    (resp : LLMResponse) (msgs : List Message) (sys : String) (tib : Bool) (rd k : Nat) :
    (handle_tool_execution llm tm resp msgs sys tib rd k).rounds ≤
      MAX_TOOL_ROUNDS - rd + 1 := by
  rw [handle_tool_execution]
  split
  · rename_i h
    simp only [MAX_TOOL_ROUNDS, Bool.and_eq_true, decide_eq_true_eq] at h
    simp only []
    refine Nat.add_le_add_right ?_ 1
    refine le_trans (handle_rounds_le llm tm (llm k) _ sys tib (rd + 1) (k + 1)) ?_
    simp only [MAX_TOOL_ROUNDS]
    omega
  · simp only []
    omega
termination_by MAX_TOOL_ROUNDS - rd
decreasing_by
  rename_i h
  simp only [MAX_TOOL_ROUNDS, Bool.and_eq_true, decide_eq_true_eq] at h ⊢
  omega

theorem handle_last_no_tools (llm : Nat → LLMResponse) (tm : ToolManager)
    (resp : LLMResponse) (msgs : List Message) (sys : String) (tib : Bool) (rd k : Nat)
    (hall : ∀ j, (llm j).stop_reason = "tool_use") (d : CallRecord) :
    ((handle_tool_execution llm tm resp msgs sys tib rd k).calls.getLastD d).toolsIncluded
      = false := by
  rw [handle_tool_execution]
  split
  · simp only [List.getLastD_cons]
    exact handle_last_no_tools llm tm (llm k) _ sys tib (rd + 1) (k + 1) hall _
  · rename_i h
    simp only [hall k, beq_self_eq_true, Bool.true_and, Bool.not_eq_true] at h
    simp [h]
termination_by MAX_TOOL_ROUNDS - rd
decreasing_by
  rename_i h
  simp only [MAX_TOOL_ROUNDS, Bool.and_eq_true, decide_eq_true_eq] at h ⊢
  omega

theorem handle_fallback (llm : Nat → LLMResponse) (tm : ToolManager)
    (resp : LLMResponse) (msgs : List Message) (sys : String) (tib : Bool) (rd k : Nat)
    (hno : extractText (handle_tool_execution llm tm resp msgs sys tib rd k).final.content
      = none) :
    (handle_tool_execution llm tm resp msgs sys tib rd k).result
      = some FALLBACK_MESSAGE := by
  rw [handle_tool_execution] at hno ⊢
  split at hno
  · rename_i h
    simp only [h, dite_true] at *
    exact handle_fallback llm tm (llm k) _ sys tib (rd + 1) (k + 1) hno
  · rename_i h
    simp only [h, dite_false] at *
    simp [hno]
termination_by MAX_TOOL_ROUNDS - rd
decreasing_by
  rename_i h
  simp only [MAX_TOOL_ROUNDS, Bool.and_eq_true, decide_eq_true_eq] at h ⊢
  omega

theorem handle_error_terminal (llm : Nat → LLMResponse) (tm : ToolManager)
    (resp : LLMResponse) (msgs : List Message) (sys : String) (tib : Bool) (rd k : Nat)
    (herr : (collectToolResults tm resp.content).2 = true) :
    (handle_tool_execution llm tm resp msgs sys tib rd k).rounds = 1 ∧
      ∀ c ∈ (handle_tool_execution llm tm resp msgs sys tib rd k).calls,
        c.toolsIncluded = false := by
  rw [handle_tool_execution]
  split
  · rename_i h
    simp [herr] at h
  · simp [herr]

theorem handle_first_call (llm : Nat → LLMResponse) (tm : ToolManager)
    (resp : LLMResponse) (msgs : List Message) (sys : String) (tib : Bool) (rd k : Nat)
    (hne : (collectToolResults tm resp.content).1.isEmpty = false) :
    ∃ b, (handle_tool_execution llm tm resp msgs sys tib rd k).calls.head? =
      some (CallRecord.mk
        (msgs ++ [Message.mk "assistant" (MsgContent.blocks resp.content),
          Message.mk "user" (MsgContent.results (collectToolResults tm resp.content).1)])
        sys b) := by
  rw [handle_tool_execution]
  split <;>
    exact ⟨decide (rd < MAX_TOOL_ROUNDS) && !(collectToolResults tm resp.content).2 && tib,
      by simp [hne]⟩

theorem handle_execs_first (llm : Nat → LLMResponse) (tm : ToolManager)
    (resp : LLMResponse) (msgs : List Message) (sys : String) (tib : Bool) (rd k : Nat) :
    ∃ rest, (handle_tool_execution llm tm resp msgs sys tib rd k).toolExecs =
      toolCallsOf resp.content ++ rest := by
  rw [handle_tool_execution]
  split
  · exact ⟨_, rfl⟩
  · exact ⟨[], by simp⟩

/-- C1: Round cap: for every sequence of LLM responses in which each response
requests a tool call, a single call to `generate_response` issues at most
`MAX_TOOL_ROUNDS` (= 2) tool-bearing exchanges and at most
`MAX_TOOL_ROUNDS + 1` total LLM calls, and the final LLM call of the query
never includes the tool schema. -/
theorem generate_response_round_cap (llm : Nat → LLMResponse) (q : String)
    (hist : Option String) (tools : List String) (tm : ToolManager)
    (hall : ∀ j, (llm j).stop_reason = "tool_use") :
    (generate_response llm q hist tools (some tm)).rounds ≤ MAX_TOOL_ROUNDS ∧
    (generate_response llm q hist tools (some tm)).calls.length ≤ MAX_TOOL_ROUNDS + 1 ∧
    ∀ c, (generate_response llm q hist tools (some tm)).calls.getLast? = some c →
      c.toolsIncluded = false := by
  simp only [generate_response, hall 0, beq_self_eq_true, if_true, List.length_cons]
  refine ⟨?_, ?_, ?_⟩
  · exact handle_rounds_le llm tm (llm 0) _ _ _ 1 1
  · rw [handle_calls_length]
    exact Nat.add_le_add_right (handle_rounds_le llm tm (llm 0) _ _ _ 1 1) 1
  · intro c hc
    rw [List.getLast?_cons] at hc
    have hd := handle_last_no_tools llm tm (llm 0)
      [Message.mk "user" (MsgContent.str q)]
      (if truthy hist then SYSTEM_PROMPT ++ "\n\nPrevious conversation:\n" ++ hist.getD ""
        else SYSTEM_PROMPT)
      (!tools.isEmpty) 1 1 hall
      (CallRecord.mk [Message.mk "user" (MsgContent.str q)]
        (if truthy hist then SYSTEM_PROMPT ++ "\n\nPrevious conversation:\n" ++ hist.getD ""
          else SYSTEM_PROMPT)
        (!tools.isEmpty))
    rw [List.getLastD_eq_getLast?] at hd
    exact Option.some_inj.mp hc ▸ hd

theorem gen_tool_path (llm : Nat → LLMResponse) (q : String) (hist : Option String)
    (tools : List String) (tm : ToolManager) (h0 : (llm 0).stop_reason = "tool_use") :
    generate_response llm q hist tools (some tm) =
      RunResult.mk
        (CallRecord.mk [Message.mk "user" (MsgContent.str q)] (gen_system hist)
            (!tools.isEmpty) :: (gen_handle llm tm q hist tools).calls)
        (gen_handle llm tm q hist tools).toolExecs
        (gen_handle llm tm q hist tools).rounds
        (gen_handle llm tm q hist tools).final
        (gen_handle llm tm q hist tools).result := by
  simp [generate_response, gen_handle, gen_system, h0]

theorem gen_direct_path (llm : Nat → LLMResponse) (q : String) (hist : Option String)
    (tools : List String) (tmgr : Option ToolManager)
    (h : ¬((llm 0).stop_reason = "tool_use" ∧ tmgr.isSome = true)) :
    generate_response llm q hist tools tmgr =
      RunResult.mk
        [CallRecord.mk [Message.mk "user" (MsgContent.str q)] (gen_system hist)
          (!tools.isEmpty)]
        [] 0 (llm 0) (firstBlockText (llm 0).content) := by
  match tmgr with
  | none => simp [generate_response, gen_system]
  | some tm =>
    have h0 : ¬((llm 0).stop_reason = "tool_use") := fun hs => h ⟨hs, rfl⟩
    simp [generate_response, gen_system, h0]

/-- C2: Tool exceptions strictly prevent a further tool round: if a tool
execution raises an exception during a round, the handler for that round
performs no further tool-bearing exchange (its `rounds` count is 1) and
every LLM call it issues — in particular the one that follows the errored
round — omits the tool schema, whatever the round number; for a full query
whose first round raises, the run makes exactly two LLM calls and the
second omits the tool schema. -/
theorem tool_error_blocks_next_round (llm : Nat → LLMResponse) (tm : ToolManager)
    (i n : String) (inp : ToolInput) (e : String)
    (hex : tm.execute_tool n inp = Except.error e) :
    (∀ (resp : LLMResponse) (msgs : List Message) (sys : String) (tib : Bool) (rd k : Nat),
      ContentBlock.toolUse i n inp ∈ resp.content →
      (handle_tool_execution llm tm resp msgs sys tib rd k).rounds = 1 ∧
        ∀ c ∈ (handle_tool_execution llm tm resp msgs sys tib rd k).calls,
          c.toolsIncluded = false) ∧
    (∀ (q : String) (hist : Option String) (tools : List String),
      (llm 0).stop_reason = "tool_use" →
      ContentBlock.toolUse i n inp ∈ (llm 0).content →
      (generate_response llm q hist tools (some tm)).calls.length = 2 ∧
        ∀ c, (generate_response llm q hist tools (some tm)).calls.getLast? = some c →
          c.toolsIncluded = false) := by
  constructor
  · intro resp msgs sys tib rd k hmem
    exact handle_error_terminal llm tm resp msgs sys tib rd k
      (collect_snd_of_raises tm resp.content i n inp e hmem hex)
  · intro q hist tools h0 hmem
    have hterm : (gen_handle llm tm q hist tools).rounds = 1 ∧
        ∀ c ∈ (gen_handle llm tm q hist tools).calls, c.toolsIncluded = false :=
      handle_error_terminal llm tm (llm 0) _ _ _ 1 1
        (collect_snd_of_raises tm (llm 0).content i n inp e hmem hex)
    have hlen : (gen_handle llm tm q hist tools).calls.length =
        (gen_handle llm tm q hist tools).rounds :=
      handle_calls_length llm tm (llm 0) _ _ _ 1 1
    rw [gen_tool_path llm q hist tools tm h0]
    constructor
    · simp [hlen, hterm.1]
    · intro c hc
      rw [List.getLast?_cons] at hc
      obtain ⟨c1, hc1⟩ := List.length_eq_one.mp (hlen.trans hterm.1)
      rw [hc1] at hc
      simp only [List.getLast?_singleton, Option.getD_some, Option.some_inj] at hc
      exact hc ▸ hterm.2 c1 (hc1 ▸ List.mem_singleton_self c1)

/-- C3: Every exception raised by execution of a tool during a round is
caught inside the round handler — the query still returns a string, never
the uncaught-exception outcome — and the tool result recorded for that call
is exactly the string `"Tool execution error: <message>"`, tagged with the
originating tool-call identifier. -/
theorem tool_exception_contained (llm : Nat → LLMResponse) (tm : ToolManager)
    (q : String) (hist : Option String) (tools : List String)
    (h0 : (llm 0).stop_reason = "tool_use") :
    (generate_response llm q hist tools (some tm)).result.isSome = true ∧
    ∀ (bs : List ContentBlock) (i n : String) (inp : ToolInput) (e : String),
      ContentBlock.toolUse i n inp ∈ bs →
      tm.execute_tool n inp = Except.error e →
      ToolResult.mk i ("Tool execution error: " ++ e) ∈ (collectToolResults tm bs).1 := by
  constructor
  · have hs : (gen_handle llm tm q hist tools).result.isSome = true :=
      handle_result_isSome llm tm (llm 0) _ _ _ 1 1
    rw [gen_tool_path llm q hist tools tm h0]
    exact hs
  · intro bs i n inp e hmem hex
    rw [collect_fst]
    refine List.mem_filterMap.mpr ⟨ContentBlock.toolUse i n inp, hmem, ?_⟩
    simp [resultString, hex]

/-- C6: Within one LLM turn that requests tool calls, the calls are executed
sequentially in the order the LLM emitted them — the collected results list
is the in-order map over the `tool_use` blocks, each result tagged
with the identifier of the block that produced it — and all results are
appended to the message history as a single combined tool-result message,
placed right after the assistant turn in the messages of the follow-up call. -/
theorem tool_results_single_combined_message (llm : Nat → LLMResponse) (tm : ToolManager)
    (resp : LLMResponse) (msgs : List Message) (sys : String) (tib : Bool) (rd k : Nat)
    (i n : String) (inp : ToolInput)
    (hmem : ContentBlock.toolUse i n inp ∈ resp.content) :
    (collectToolResults tm resp.content).1 = (resp.content.filterMap fun b =>
      match b with
      | ContentBlock.toolUse i' n' inp' =>
        some (ToolResult.mk i' (resultString tm n' inp'))
      | _ => none) ∧
    (∃ b, (handle_tool_execution llm tm resp msgs sys tib rd k).calls.head? =
      some (CallRecord.mk
        (msgs ++ [Message.mk "assistant" (MsgContent.blocks resp.content),
          Message.mk "user" (MsgContent.results (collectToolResults tm resp.content).1)])
        sys b)) ∧
    ∃ rest, (handle_tool_execution llm tm resp msgs sys tib rd k).toolExecs =
      toolCallsOf resp.content ++ rest := by
  have hne : (collectToolResults tm resp.content).1.isEmpty = false :=
    List.isEmpty_eq_false_iff_exists_mem.mpr ⟨ToolResult.mk i (resultString tm n inp), by
      rw [collect_fst]
      exact List.mem_filterMap.mpr ⟨ContentBlock.toolUse i n inp, hmem, rfl⟩⟩
  exact ⟨collect_fst tm resp.content,
    handle_first_call llm tm resp msgs sys tib rd k hne,
    handle_execs_first llm tm resp msgs sys tib rd k⟩

/-- C7: If the follow-up LLM response that terminates the round loop
contains no text block, `generate_response` returns the fixed fallback
string instead of raising an exception to the caller. -/
theorem fallback_when_no_text (llm : Nat → LLMResponse) (tm : ToolManager)
    (q : String) (hist : Option String) (tools : List String)
    (h0 : (llm 0).stop_reason = "tool_use")
    (hno : extractText (generate_response llm q hist tools (some tm)).final.content = none) :
    (generate_response llm q hist tools (some tm)).result = some FALLBACK_MESSAGE := by
  rw [gen_tool_path llm q hist tools tm h0] at hno ⊢
  exact handle_fallback llm tm (llm 0) _ _ _ 1 1 hno

/-- C8: Direct-answer scenario: when the first LLM response does not have
stop reason `"tool_use"` and its first content block is a text block,
`generate_response` makes exactly one outbound LLM call, executes zero
tools, and returns exactly the text of the LLM. -/
theorem direct_answer_single_call (llm : Nat → LLMResponse) (q : String)
    (hist : Option String) (tools : List String) (tmgr : Option ToolManager) (t : String)
    (h0 : (llm 0).stop_reason ≠ "tool_use")
    (ht : (llm 0).content.head? = some (ContentBlock.text t)) :
    (generate_response llm q hist tools tmgr).calls.length = 1 ∧
    (generate_response llm q hist tools tmgr).toolExecs = [] ∧
    (generate_response llm q hist tools tmgr).rounds = 0 ∧
    (generate_response llm q hist tools tmgr).result = some t := by
  rw [gen_direct_path llm q hist tools tmgr fun hand => h0 hand.1]
  refine ⟨rfl, rfl, rfl, ?_⟩
  cases hc : (llm 0).content with
  | nil => rw [hc] at ht; simp at ht
  | cons b rest =>
    rw [hc] at ht
    simp only [List.head?_cons, Option.some_inj] at ht
    subst ht
    rfl

/-- C9: Tool handling is gated on both conditions at once: the tool path is
taken if and only if the stop reason of the first response is `"tool_use"` and a
tool manager was supplied; in every other case the direct-return path reads
the text attribute of the first content block, which succeeds exactly when
that first block is a text block. -/
theorem tool_path_gate (llm : Nat → LLMResponse) (q : String) (hist : Option String)
    (tools : List String) (tmgr : Option ToolManager) :
    (1 ≤ (generate_response llm q hist tools tmgr).rounds ↔
      ((llm 0).stop_reason = "tool_use" ∧ tmgr.isSome = true)) ∧
    ((generate_response llm q hist tools tmgr).rounds = 0 →
      (generate_response llm q hist tools tmgr).result = firstBlockText (llm 0).content) ∧
    (∀ bs : List ContentBlock,
      (firstBlockText bs).isSome = true ↔ ∃ s, bs.head? = some (ContentBlock.text s)) := by
  have hfb : ∀ bs : List ContentBlock,
      (firstBlockText bs).isSome = true ↔ ∃ s, bs.head? = some (ContentBlock.text s) := by
    intro bs
    cases bs with
    | nil => simp [firstBlockText]
    | cons b rest => cases b <;> simp [firstBlockText]
  by_cases hgate : (llm 0).stop_reason = "tool_use" ∧ tmgr.isSome = true
  · obtain ⟨h0, hsome⟩ := hgate
    obtain ⟨tm, rfl⟩ := Option.isSome_iff_exists.mp hsome
    rw [gen_tool_path llm q hist tools tm h0]
    have hp : 1 ≤ (gen_handle llm tm q hist tools).rounds :=
      handle_rounds_pos llm tm (llm 0) _ _ _ 1 1
    refine ⟨iff_of_true hp ⟨h0, rfl⟩, fun hz => ?_, hfb⟩
    have hz' : (gen_handle llm tm q hist tools).rounds = 0 := hz
    omega
  · rw [gen_direct_path llm q hist tools tmgr hgate]
    exact ⟨by simpa using hgate, fun _ => rfl, hfb⟩

/-- C10: Passing the empty string as conversation history behaves exactly
like passing none — the history is tested for truthiness — and the system
content sent to the LLM on every call of the query is then exactly the
static system prompt, with no previous-conversation section appended. -/
theorem empty_history_like_none (llm : Nat → LLMResponse) (q : String)
    (tools : List String) (tmgr : Option ToolManager) :
    generate_response llm q (some "") tools tmgr = generate_response llm q none tools tmgr ∧
    ∀ c ∈ (generate_response llm q none tools tmgr).calls, c.system = SYSTEM_PROMPT := by
  constructor
  · rfl
  · cases tmgr with
    | none =>
      rw [gen_direct_path llm q none tools none (by simp)]
      intro c hc
      simp only [List.mem_singleton] at hc
      subst hc
      rfl
    | some tm =>
      by_cases h0 : (llm 0).stop_reason = "tool_use"
      · rw [gen_tool_path llm q none tools tm h0]
        intro c hc
        simp only [List.mem_cons] at hc
        cases hc with
        | inl h => subst h; rfl
        | inr h =>
          have hall : ((gen_handle llm tm q none tools).calls.all
              fun c => c.system == gen_system none) = true :=
            handle_system_all llm tm (llm 0) _ _ _ 1 1
          exact eq_of_beq (List.all_eq_true.mp hall c h)
      · rw [gen_direct_path llm q none tools (some tm) (by simp [h0])]
        intro c hc
        simp only [List.mem_singleton] at hc
        subst hc
        rfl

/-- C4: The filter builder satisfies all combinations: no filter when
neither argument is given; an equality filter on the course title alone; an
equality filter on the lesson number alone for every `n`, with
`lessonNumber = 0` a valid filter value never coalesced with the no-filter
case; and the conjunction of both equality filters when both are given. -/
theorem build_filter_spec :
    build_filter none none = none ∧
    (∀ c, build_filter (some c) none = some (ChromaFilter.courseTitle c)) ∧
    (∀ n, build_filter none (some n) = some (ChromaFilter.lessonNumber n)) ∧
    (build_filter none (some 0) = some (ChromaFilter.lessonNumber 0) ∧
      build_filter none (some 0) ≠ build_filter none none) ∧
    (∀ c n, build_filter (some c) (some n) =
      some (ChromaFilter.conj
        [ChromaFilter.courseTitle c, ChromaFilter.lessonNumber n])) := by
  refine ⟨rfl, fun c => rfl, fun n => rfl, ⟨rfl, by simp [build_filter]⟩, fun c n => rfl⟩

/-- C5: A `SearchResults` value with a non-null error is always reported
empty by the emptiness check, and — under the data-model invariant, which
the `empty` factory establishes — its documents, metadata and distances
sequences are empty; a result with no error and no documents means "search
succeeded, no matches": reported empty while its error stays null. -/
theorem search_results_error_empty :
    (∀ sr : SearchResults, sr.Wf → sr.error.isSome = true →
      sr.is_empty = true ∧ sr.documents = [] ∧ sr.metadata = [] ∧ sr.distances = []) ∧
    (∀ msg, (SearchResults.empty msg).Wf ∧ (SearchResults.empty msg).error = some msg ∧
      (SearchResults.empty msg).is_empty = true) ∧
    (∀ sr : SearchResults, sr.error = none → sr.documents = [] →
      sr.is_empty = true ∧ sr.error = none) := by
  refine ⟨?_, ?_, ?_⟩
  · intro sr hwf herr
    obtain ⟨h1, h2, h3⟩ := hwf herr
    exact ⟨by simp [SearchResults.is_empty, h1], h1, h2, h3⟩
  · intro msg
    exact ⟨fun _ => ⟨rfl, rfl, rfl⟩, rfl, rfl⟩
  · intro sr herr hdocs
    exact ⟨by simp [SearchResults.is_empty, hdocs], herr⟩

/-- Witness for the round cap, at an LLM that always requests a tool call
and a tool manager that always succeeds. -/
theorem generate_response_round_cap_witness :
    (generate_response llmAllTool "q" none ["search_course_content"] (some tmOk)).rounds
        ≤ MAX_TOOL_ROUNDS ∧
    (generate_response llmAllTool "q" none ["search_course_content"] (some tmOk)).calls.length
        ≤ MAX_TOOL_ROUNDS + 1 :=
  ⟨(generate_response_round_cap llmAllTool "q" none ["search_course_content"] tmOk
      fun _ => rfl).1,
    (generate_response_round_cap llmAllTool "q" none ["search_course_content"] tmOk
      fun _ => rfl).2.1⟩

/-- Witness for the error-blocks-next-round property, at a query whose one
tool call raises `DB connection failed`. -/
theorem tool_error_blocks_next_round_witness :
    (generate_response llmToolThenText "search" none ["search_course_content"]
      (some tmRaise)).calls.length = 2 :=
  ((tool_error_blocks_next_round llmToolThenText tmRaise "t1" "search_course_content"
    [("query", "fail")] "DB connection failed" rfl).2 "search" none
    ["search_course_content"] rfl (List.mem_singleton_self _)).1

/-- Witness for exception containment: the query still produces a result
string and the synthetic error string is recorded with the id of the call. -/
theorem tool_exception_contained_witness :
    (generate_response llmToolThenText "search" none ["search_course_content"]
      (some tmRaise)).result.isSome = true ∧
    ToolResult.mk "t1" ("Tool execution error: " ++ "DB connection failed") ∈
      (collectToolResults tmRaise
        [ContentBlock.toolUse "t1" "search_course_content" [("query", "fail")]]).1 :=
  ⟨(tool_exception_contained llmToolThenText tmRaise "search" none
      ["search_course_content"] rfl).1,
    (tool_exception_contained llmToolThenText tmRaise "search" none
      ["search_course_content"] rfl).2
      [ContentBlock.toolUse "t1" "search_course_content" [("query", "fail")]]
      "t1" "search_course_content" [("query", "fail")] "DB connection failed"
      (List.mem_singleton_self _) rfl⟩

/-- Witness for the combined-tool-result property: the collected results of
a concrete turn are the in-order tagged map over its tool-use blocks. -/
theorem tool_results_single_combined_message_witness :
    (collectToolResults tmOk (llmAllTool 0).content).1 =
      ((llmAllTool 0).content.filterMap fun b =>
        match b with
        | ContentBlock.toolUse i' n' inp' =>
          some (ToolResult.mk i' (resultString tmOk n' inp'))
        | _ => none) :=
  (tool_results_single_combined_message llmAllTool tmOk (llmAllTool 0) [] SYSTEM_PROMPT
    true 1 1 "t1" "search_course_content" [("query", "AI")]
    (List.mem_singleton_self _)).1

/-- Witness for the fallback property, at a query whose terminating
response has no content blocks at all. -/
theorem fallback_when_no_text_witness :
    (generate_response llmToolThenEmpty "q" none ["search_course_content"]
      (some tmOk)).result = some FALLBACK_MESSAGE :=
  fallback_when_no_text llmToolThenEmpty tmOk "q" none ["search_course_content"] rfl
    (by simp [generate_response, handle_tool_execution, llmToolThenEmpty, tmOk,
      collectToolResults, toolCallsOf, extractText, truthy])

/-- Witness for the direct-answer scenario at a plain-text first response. -/
theorem direct_answer_single_call_witness :
    (generate_response llmDirect "hello" none ["search_course_content"]
      (some tmOk)).calls.length = 1 ∧
    (generate_response llmDirect "hello" none ["search_course_content"]
      (some tmOk)).toolExecs = [] ∧
    (generate_response llmDirect "hello" none ["search_course_content"]
      (some tmOk)).result = some "Direct answer" :=
  ⟨(direct_answer_single_call llmDirect "hello" none ["search_course_content"]
      (some tmOk) "Direct answer" (by decide) rfl).1,
    (direct_answer_single_call llmDirect "hello" none ["search_course_content"]
      (some tmOk) "Direct answer" (by decide) rfl).2.1,
    (direct_answer_single_call llmDirect "hello" none ["search_course_content"]
      (some tmOk) "Direct answer" (by decide) rfl).2.2.2⟩
